import Mathlib

/-!
Shallow embedding of the jeepyb project-administration scripts
(openstack-infra/jeepyb) and proofs about them.

The Python sources embedded here are:
  * `jeepyb/utils.py` (`is_retired`, `ProjectsRegistry.configs_list`,
    `fsck_repo`, `make_local_copy`),
  * `jeepyb/cmd/manage_projects.py` (`fetch_config`, `_get_group_uuid`,
    `get_group_uuid`, `make_local_copy`, `main`'s per-project loop),
  * `jeepyb/cmd/track_upstream.py` (`main`'s per-project loop),
  * `jeepyb/cmd/welcome_message.py` (`is_newbie`, `main`),
  * `jeepyb/cmd/update_bug.py` (`find_bugs`' regular expression and
    `Task.__init__`'s prefix classification),
  * `jeepyb/projects.py` / module-level name resolution.

Machine integers do not occur (Python ints are unbounded); subprocess
return codes are modelled as `Int`, external-system responses as explicit
function parameters, and side effects as explicit effect traces.
-/

namespace Jeepyb

/-! ## String helpers (Python `str` operations on `List Char`) -/

/-- Python `needle in hay` (substring containment) on character lists. -/
def subOf (needle : List Char) : List Char → Bool
  | [] => needle.isEmpty
  | c :: t => needle.isPrefixOf (c :: t) || subOf needle t

/-- Python `needle in hay` on strings. -/
def hasSubstr (hay needle : String) : Bool :=
  subOf needle.data hay.data

/-- Python `s.endswith(suffix)`. -/
def pyEndsWith (s suffix : String) : Bool :=
  List.isSuffixOf suffix.data s.data

/-- Python `s.split(sep)` for a one-character separator: the list of
(possibly empty) chunks between occurrences of `sep`. -/
def splitChar (sep : Char) : List Char → List (List Char)
  | [] => [[]]
  | c :: t =>
    let r := splitChar sep t
    if c = sep then [] :: r
    else
      match r with
      | h :: t2 => (c :: h) :: t2
      | [] => [[c]]

/-- Python 2 `str` whitespace for `.strip()` and the regex class `\s`:
space, tab, newline, carriage return, vertical tab, form feed. -/
def isSpacePy (c : Char) : Bool :=
  c == ' ' || c == '\t' || c == '\n' || c == '\r' ||
    c == Char.ofNat 11 || c == Char.ofNat 12

/-- Python `s.strip()`. -/
def pyStrip (s : String) : String :=
  String.mk (((s.data.dropWhile isSpacePy).reverse.dropWhile isSpacePy).reverse)

/-- Python `template % arg` for a template holding a single `%s`. -/
def formatS : List Char → List Char → List Char
  | [], _ => []
  | '%' :: 's' :: rest, arg => arg ++ rest
  | c :: rest, arg => c :: formatS rest arg

/-- Python `template % arg` on strings. -/
def pyFormatS (template arg : String) : String :=
  String.mk (formatS template.data arg.data)

/-- Python `s.lower()` (ASCII). -/
def pyLower (s : String) : String :=
  String.mk (s.data.map Char.toLower)

/-- Index of the last occurrence of `c` (Python `s.rindex(c)`), `none`
when `c` does not occur (Python raises `ValueError` there). -/
def rindexChar (c : Char) : List Char → Option Nat
  | [] => none
  | d :: t =>
    match rindexChar c t with
    | some j => some (j + 1)
    | none => if d = c then some 0 else none

/-! ## `jeepyb/utils.py`: `fsck_repo` -/

/-- Embedding of `utils.fsck_repo` (identical code is repeated in
`track_upstream.fsck_repo`).  The repository-dependent part is the
`git fsck --full` subprocess result, passed in as the return code `rc`
and combined stdout/stderr `out`; the function raises (here:
`Except.error`) exactly when the source raises
`Exception('git fsck failed not importing')`. -/
def fsck_repo (rc : Int) (out : String) : Except String Unit :=
  if rc ≠ 0 || hasSubstr out "zeroPaddedFilemode" then
    Except.error "git fsck failed not importing"
  else
    Except.ok ()

/-! ## `jeepyb/utils.py`: registry records, `is_retired`, `configs_list` -/

/-- One record of the YAML project registry, restricted to the fields the
embedded code reads.  `aclConfigOpt = none` models an absent `acl-config`
key (Python `entry.get('acl-config', '')` then yields `''`);
`options` is the project's `options` list. -/
structure ProjSection where
  project : String
  options : List String
  upstream : Option String
  upstreamPfx : Option String
  aclConfigOpt : Option String
  deriving DecidableEq, Repr

/-- Embedding of `utils.is_retired`.  `Except.error` models the
`ValueError` that Python's `(org, name) = project.split('/')` raises when
the name holds two or more slashes. -/
def is_retired (e : ProjSection) : Except String Bool :=
  if pyEndsWith (e.aclConfigOpt.getD "") "/retired.config" then
    Except.ok true
  else if e.project.data.contains '/' then
    match splitChar '/' e.project.data with
    | [org, _] => Except.ok (pyEndsWith (String.mk org) "-attic")
    | _ => Except.error "ValueError"
  else
    Except.ok false

/-- Boolean retirement test used to state what `configs_list` filters:
the `acl-config` value ends with `/retired.config`, or the organization
segment of an `org/name` project ends with `-attic`. -/
def retiredB (e : ProjSection) : Bool :=
  pyEndsWith (e.aclConfigOpt.getD "") "/retired.config" ||
    (match splitChar '/' e.project.data with
     | [org, _] => pyEndsWith (String.mk org) "-attic"
     | _ => false)

/-- Embedding of `ProjectsRegistry.configs_list`: the list comprehension
`[entry for entry in self._configs_list if not is_retired(entry)]`,
propagating the first exception `is_retired` raises. -/
def configs_list : List ProjSection → Except String (List ProjSection)
  | [] => Except.ok []
  | e :: t => do
    let r ← is_retired e
    let rest ← configs_list t
    pure (if r then rest else e :: rest)

/-! ## `jeepyb/cmd/welcome_message.py`: `is_newbie` and the posting gate -/

/-- The `searchkey` computed by `is_newbie`: Python
`uploader[uploader.rindex("(") + 1:-1]`, i.e. everything after the last
`(` with the final character dropped; `none` when `(` does not occur and
`rindex` raises `ValueError`. -/
def uploaderEmail (uploader : String) : Option String :=
  match rindexChar '(' uploader.data with
  | none => none
  | some i =>
    some (String.mk ((uploader.data.take (uploader.data.length - 1)).drop (i + 1)))

/-- Embedding of `welcome_message.is_newbie`.  The review database is the
function `db` from the searchkey email to the `fetchone()` row of the
distinct-patch-set COUNT query (`none` models a missing row).  The result
is Python's: `some false` on `ValueError`, `some (count = 1)` on a row,
and `none` (the implicit `None` fall-through) on a missing row. -/
def is_newbie (db : String → Option Nat) (uploader : String) : Option Bool :=
  match uploaderEmail uploader with
  | none => some false
  | some searchkey =>
    match db searchkey with
    | some count => some (count == 1)
    | none => none

/-- Python truthiness of the `None / False / True` results of
`is_newbie`. -/
def pyTruthy : Option Bool → Bool
  | some b => b
  | none => false

/-- Embedding of the posting decision in `welcome_message.main`:
`if is_newbie(args.uploader) and args.patchset == '1' and not
args.dryrun: post_message(...)`. -/
def welcome_posts (db : String → Option Nat) (uploader patchset : String)
    (dryrun : Bool) : Bool :=
  pyTruthy (is_newbie db uploader) && patchset == "1" && !dryrun

/-! ## `jeepyb/cmd/manage_projects.py`: bounded polling loops -/

/-- One execution of the first `for x in range(10)` loop of
`fetch_config` over the listed attempt indices: `f x` is the exit status
of the `git fetch +refs/meta/config:...` command on attempt `x`; the
loop breaks on status `0`, else sleeps 2 seconds and retries.  Returns
(number of attempts executed, final value of `status`). -/
def pollMeta (f : Nat → Int) : List Nat → Nat × Int
  | [] => (0, 1)
  | x :: rest =>
    if f x = 0 then (1, f x)
    else
      match rest with
      | [] => (1, f x)
      | _ :: _ =>
        let r := pollMeta f rest
        (r.1 + 1, r.2)

/-- One execution of the second `for x in range(10)` loop of
`fetch_config`: `g x` is the `remote update --prune` status on attempt
`x` (nonzero status sleeps and `continue`s), `h x` is the
`(status, output)` of `ls-files --with-tree=remotes/gerrit-meta/config
project.config`.  The loop breaks when the stripped output is
`project.config` with status 0.  Returns (attempts executed, final
`status`, final `output`); the `s`/`out` arguments carry the values the
variables hold on entry. -/
def pollLs (g : Nat → Int) (h : Nat → Int × String) :
    List Nat → Int → String → Nat × Int × String
  | [], s, out => (0, s, out)
  | x :: rest, _, out =>
    if g x ≠ 0 then
      match rest with
      | [] => (1, g x, out)
      | _ :: _ =>
        let r := pollLs g h rest (g x) out
        (r.1 + 1, r.2)
    else
      let p := h x
      if pyStrip p.2 != "project.config" || p.1 != 0 then
        match rest with
        | [] => (1, p.1, p.2)
        | _ :: _ =>
          let r := pollLs g h rest p.1 p.2
          (r.1 + 1, r.2)
      else (1, p.1, p.2)

/-- Outcome of `fetch_config`: how many attempts each polling loop made
and whether `FetchConfigException` was raised (`Except.error ()`). -/
structure FetchTrace where
  metaAttempts : Nat
  lsAttempts : Nat
  result : Except Unit Unit
  deriving Repr

/-- Embedding of `manage_projects.fetch_config`.  `f` gives the per-attempt
status of the `refs/meta/config` fetch, `g`/`h` the per-attempt statuses
of the second loop, `checkoutStatus` the status of the final
`checkout -B config remotes/gerrit-meta/config`. -/
def fetch_config (f g : Nat → Int) (h : Nat → Int × String)
    (checkoutStatus : Int) : FetchTrace :=
  let m := pollMeta f (List.range 10)
  if m.2 ≠ 0 then ⟨m.1, 0, Except.error ()⟩
  else
    let r := pollLs g h (List.range 10) 0 ""
    if pyStrip r.2.2 != "project.config" || r.2.1 != 0 then
      ⟨m.1, r.1, Except.error ()⟩
    else if checkoutStatus ≠ 0 then ⟨m.1, r.1, Except.error ()⟩
    else ⟨m.1, r.1, Except.ok ()⟩

/-- One execution of the `for x in range(10)` loop of
`_get_group_uuid` over the listed attempt indices: `db x` is the
`fetchone()` row of the `account_groups` query on attempt `x`; the
function returns the row's UUID as soon as one appears, else sleeps 1
second and retries, and yields `none` after exhaustion.  Returns
(attempts executed, result). -/
def pollGroup (db : Nat → Option String) : List Nat → Nat × Option String
  | [] => (0, none)
  | x :: rest =>
    match db x with
    | some u => (1, some u)
    | none =>
      let r := pollGroup db rest
      (r.1 + 1, r.2)

/-- Embedding of `manage_projects._get_group_uuid` (ten DB attempts). -/
def get_group_uuid_inner (db : Nat → Option String) : Nat × Option String :=
  pollGroup db (List.range 10)

/-- The `GERRIT_SYSTEM_GROUPS` mapping of `manage_projects.py`. -/
def GERRIT_SYSTEM_GROUPS : List (String × String) :=
  [("Anonymous Users", "global:Anonymous-Users"),
   ("Project Owners", "global:Project-Owners"),
   ("Registered Users", "global:Registered-Users"),
   ("Change Owner", "global:Change-Owner")]

/-- Outcome of `get_group_uuid`: attempts of the first `_get_group_uuid`
call, whether `gerrit.createGroup` was invoked, attempts of the second
call (0 when it never ran), and the returned UUID. -/
structure GroupUuidTrace where
  firstAttempts : Nat
  createdGroup : Bool
  secondAttempts : Nat
  uuid : Option String
  deriving DecidableEq, Repr

/-- Embedding of `manage_projects.get_group_uuid`.  `db1` gives the DB
rows seen by the first `_get_group_uuid` call, `db2` those seen by the
re-query after `gerrit.createGroup(group)`. -/
def get_group_uuid (db1 db2 : Nat → Option String) (group : String) :
    GroupUuidTrace :=
  let r1 := get_group_uuid_inner db1
  match r1.2 with
  | some u => ⟨r1.1, false, 0, some u⟩
  | none =>
    match List.lookup group GERRIT_SYSTEM_GROUPS with
    | some su => ⟨r1.1, false, 0, some su⟩
    | none =>
      let r2 := get_group_uuid_inner db2
      ⟨r1.1, true, r2.1, r2.2⟩

/-! ## `jeepyb/cmd/update_bug.py`: the `find_bugs` regular expression

The scanner compiles, with flags `re.I | re.M`,

  part1 = `^[\t ]*(?P<prefix>[-\w]+)?[\s:]*`
  part2 = `(?:\b(?:bug|lp)\b[\s#:]*)+`
  part3 = `(?P<bug_number>\d+)\s*?$`

and runs `re.finditer` over the git log.  The embedding below is a
backtracking matcher with Python `re` semantics for the constructs the
pattern uses: leftmost scan, left-biased alternation, greedy / lazy
repetition, optional groups, multiline `^`/`$`, and `\b`. -/

/-- Regular-expression syntax for the constructs `find_bugs` uses.
Character classes are predicates; `star`/`opt` carry their greediness. -/
inductive RE where
  | eps
  | char (p : Char → Bool)
  | seq (a b : RE)
  | alt (a b : RE)
  | star (greedy : Bool) (a : RE)
  | opt (greedy : Bool) (a : RE)
  | group (idx : Nat) (a : RE)
  | bol
  | eol
  | wordB

/-- Captured group spans: (group index, start, end), most recent first. -/
abbrev Caps := List (Nat × Nat × Nat)

/-- Is position `i` of `s` (just before `s[i]`) on a word character?
Out-of-range positions count as non-word, as in Python `re`. -/
def wordAt (s : List Char) (i : Nat) : Bool :=
  match s.get? i with
  | some c => c == '_' || c.isAlphanum
  | none => false

/-- Backtracking matcher in continuation-passing style.  `reMatch s fuel
re i caps k` tries to match `re` at position `i` of `s` with captured
groups `caps`, calling `k` on every way to proceed (in Python's
preference order) and yielding the first success; `fuel` bounds the
recursion depth and is chosen large enough at all call sites. -/
def reMatch (s : List Char) : Nat → RE → Nat → Caps →
    (Nat → Caps → Option (Nat × Caps)) → Option (Nat × Caps)
  | 0, _, _, _, _ => none
  | fuel + 1, re, i, caps, k =>
    match re with
    | RE.eps => k i caps
    | RE.char p =>
      match s.get? i with
      | some c => if p c then k (i + 1) caps else none
      | none => none
    | RE.seq a b =>
      reMatch s fuel a i caps (fun j c2 => reMatch s fuel b j c2 k)
    | RE.alt a b =>
      (reMatch s fuel a i caps k).orElse (fun _ => reMatch s fuel b i caps k)
    | RE.star greedy a =>
      let more := reMatch s fuel a i caps
        (fun j c2 => if j = i then none else reMatch s fuel (RE.star greedy a) j c2 k)
      if greedy then more.orElse (fun _ => k i caps)
      else (k i caps).orElse (fun _ => more)
    | RE.opt greedy a =>
      if greedy then (reMatch s fuel a i caps k).orElse (fun _ => k i caps)
      else (k i caps).orElse (fun _ => reMatch s fuel a i caps k)
    | RE.group idx a =>
      reMatch s fuel a i caps (fun j c2 => k j ((idx, i, j) :: c2))
    | RE.bol =>
      if i = 0 || s.get? (i - 1) == some '\n' then k i caps else none
    | RE.eol =>
      if i = s.length || s.get? i == some '\n' then k i caps else none
    | RE.wordB =>
      if (decide (i ≠ 0) && wordAt s (i - 1)) != wordAt s i then k i caps
      else none

/-- Attempt an anchored match of `re` at position `i`; yields the match
end and the captures. -/
def matchAt (s : List Char) (re : RE) (i : Nat) : Option (Nat × Caps) :=
  reMatch s 1000 re i [] (fun j caps => some (j, caps))

/-- Python `re.finditer`: scan positions left to right, emit each match
as (start, end, captures), and resume after the match (advancing at
least one position). -/
def scanMatches (s : List Char) (re : RE) : Nat → Nat → List (Nat × Nat × Caps)
  | 0, _ => []
  | fuel + 1, i =>
    if i > s.length then []
    else
      match matchAt s re i with
      | some (j, caps) => (i, j, caps) :: scanMatches s re fuel (max j (i + 1))
      | none => scanMatches s re fuel (i + 1)

/-- All matches of `re` in `s`. -/
def findIter (s : List Char) (re : RE) : List (Nat × Nat × Caps) :=
  scanMatches s re (s.length + 2) 0

/-- One-or-more repetition (`+` is `a` then `a*`). -/
def REplus (a : RE) : RE := RE.seq a (RE.star true a)

/-- Case-insensitive literal character (flag `re.I`). -/
def ciChar (c : Char) : RE := RE.char (fun d => d == c || d == c.toLower || d == c.toUpper)

/-- Class `[-\w]` of the `prefix` group (Python 2 `\w` without
`re.UNICODE`: letters, digits, underscore). -/
def isPrefixChar (c : Char) : Bool := c == '-' || c == '_' || c.isAlphanum

/-- Class `[\s:]`. -/
def isSpaceColon (c : Char) : Bool := isSpacePy c || c == ':'

/-- Class `[\s#:]`. -/
def isSpaceHashColon (c : Char) : Bool := isSpacePy c || c == '#' || c == ':'

/-- part1: `^[\t ]*(?P<prefix>[-\w]+)?[\s:]*` (group 1 is `prefix`). -/
def bugPart1 : RE :=
  RE.seq RE.bol
    (RE.seq (RE.star true (RE.char (fun c => c == '\t' || c == ' ')))
      (RE.seq (RE.opt true (RE.group 1 (REplus (RE.char isPrefixChar))))
        (RE.star true (RE.char isSpaceColon))))

/-- part2: `(?:\b(?:bug|lp)\b[\s#:]*)+`. -/
def bugPart2 : RE :=
  REplus
    (RE.seq RE.wordB
      (RE.seq
        (RE.alt (RE.seq (ciChar 'b') (RE.seq (ciChar 'u') (ciChar 'g')))
          (RE.seq (ciChar 'l') (ciChar 'p')))
        (RE.seq RE.wordB (RE.star true (RE.char isSpaceHashColon)))))

/-- part3: `(?P<bug_number>\d+)\s*?$` (group 2 is `bug_number`). -/
def bugPart3 : RE :=
  RE.seq (RE.group 2 (REplus (RE.char Char.isDigit)))
    (RE.seq (RE.star false (RE.char isSpacePy)) RE.eol)

/-- The full `find_bugs` regular expression. -/
def bugRegexp : RE := RE.seq bugPart1 (RE.seq bugPart2 bugPart3)

/-- Extract a group's captured text from a match, `none` when the group
did not participate (Python group value `None`). -/
def capText (s : List Char) (caps : Caps) (idx : Nat) : Option String :=
  match caps.find? (fun c => c.1 == idx) with
  | some (_, a, b) => some (String.mk ((s.take b).drop a))
  | none => none

/-- The (prefix, bug_number) pairs `find_bugs` extracts from a git log,
one per regex match, in match order.  An unmatched `prefix` group is
`none`; the `bug_number` group always participates, `""` stands in for
the impossible missing case. -/
def bugMatches (gitLog : String) : List (Option String × String) :=
  (findIter gitLog.data bugRegexp).map
    (fun m => (capText gitLog.data m.2.2 1,
               (capText gitLog.data m.2.2 2).getD ""))

/-- The keyword `Task.__init__` derives from a matched prefix:
`prefix.split('-')[0].lower() if prefix else 'closes'`. -/
def prefixKeyword (pfx : Option String) : String :=
  match pfx with
  | none => "closes"
  | some p =>
    if p.isEmpty then "closes"
    else pyLower (String.mk ((splitChar '-' p.data).headD []))

/-- The `changes_needed` list `Task.__init__` builds from the keyword. -/
def changes_needed (keyword : String) : List String :=
  if keyword == "closes" || keyword == "fixes" || keyword == "resolves" then
    ["add_comment", "set_in_progress", "set_fix_committed", "set_fix_released"]
  else if keyword == "partial" then
    ["add_comment", "set_in_progress"]
  else if keyword == "related" || keyword == "impacts" || keyword == "affects" then
    ["sidenote"]
  else
    ["add_comment"]

/-- Bug references as (bug number, action keyword) pairs: the composition
of the regex scan with `Task.__init__`'s prefix classification. -/
def bugKeywords (gitLog : String) : List (String × String) :=
  (bugMatches gitLog).map (fun m => (m.2, prefixKeyword m.1))

/-! ## Effect-trace model of `manage_projects.main` and
`track_upstream.main`

Each external side effect of the per-project bodies becomes one `Effect`
constructor; a run is embedded as the list of effects it performs, in
order.  The vocabulary also holds `cacheWrite` and `removeTree`
constructors so that the progress-cache writes and temporary-directory
removals the specification speaks of are expressible: the two scripts
under `src/` emit neither (no code writes a cache file, and neither
`shutil` nor any directory removal appears in them), which the theorems
below state as the absence of those effects. -/

/-- One observable side effect of a synchronizer run. -/
inductive Effect where
  | createGerritProject (project : String)
  | replicate (project : String)
  | bareInit (path : String)
  | chownRepo (path : String)
  | shellCmd (cmd : String)
  | gitClone (url path : String)
  | gitInit (path : String)
  | writeGitreview (path content : String)
  | gitCmd (path cmd : String)
  | pushToGerrit (path cmd : String)
  | processAcls (project aclConfig : String)
  | createGithub (project : String)
  | syncUpstream (project : String)
  | updateLocal (project : String)
  | fsckEffect (path : String)
  | logError (msg : String)
  | cacheWrite (project key : String) (value : Bool)
  | removeTree (path : String)
  | unlinkSshWrapper
  deriving DecidableEq, Repr

/-- The `projects.ini` defaults `main` reads via `registry.get_defaults`,
restricted to the keys the embedded control flow consults. -/
structure Defaults where
  defaultHasGithub : Bool
  localGitDir : String
  jeepybCacheDir : String
  aclDir : String
  gerritHost : String
  gerritPort : Nat
  gerritGitid : String
  gerritReplicate : Bool
  deriving Repr

/-- The external world one `manage_projects` run observes: Gerrit's
project list, which paths exist on disk, and which external calls fail
(raise) or report creation. -/
structure Env where
  projectList : List String
  repoExists : String → Bool
  mirrorExists : String → Bool
  createProjectRaises : String → Bool
  bareInitStatus : String → Int
  githubRaises : String → Bool
  githubCreated : String → Bool

/-- A single-quote character, used in the `.gitreview` commit command. -/
def squote : String := String.mk [Char.ofNat 39]

/-- The `commit -a -m'Added .gitreview' --author='...'` command line. -/
def commitGitreviewCmd (gitid : String) : String :=
  "commit -a -m" ++ squote ++ "Added .gitreview" ++ squote ++
    " --author=" ++ squote ++ gitid ++ squote

/-- The `.gitreview` content `make_local_copy` writes:
`[gerrit]\nhost=...\nport=...\nproject=<project>.git\n`. -/
def gitreviewContent (host : String) (port : Nat) (projectGit : String) : String :=
  "[gerrit]\nhost=" ++ host ++ "\nport=" ++ toString port ++
    "\nproject=" ++ projectGit ++ "\n"

/-- Embedding of `make_local_copy` (`manage_projects.py` lines 352-419;
`utils.py` lines 94-166 is the same sequence): the effects performed and
the returned push-string template (`none` when Gerrit already has the
project). -/
def make_local_copy (repoPath project : String) (projectList : List String)
    (upstream : Option String) (remoteUrl host : String) (port : Nat)
    (projectGit gitid : String) : List Effect × Option String :=
  if projectList.contains project then
    ([Effect.gitClone remoteUrl repoPath] ++
       (match upstream with
        | some up => [Effect.gitCmd repoPath ("remote add -f upstream " ++ up)]
        | none => []),
     none)
  else
    match upstream with
    | some up =>
      ([Effect.gitClone up repoPath,
        Effect.gitCmd repoPath "fetch origin +refs/heads/*:refs/copy/heads/*",
        Effect.gitCmd repoPath "remote rename origin upstream",
        Effect.gitCmd repoPath ("remote add origin " ++ remoteUrl)],
       some "push %s +refs/copy/heads/*:refs/heads/*")
    | none =>
      ([Effect.gitInit repoPath,
        Effect.gitCmd repoPath ("remote add origin " ++ remoteUrl),
        Effect.writeGitreview repoPath (gitreviewContent host port projectGit),
        Effect.gitCmd repoPath "add .gitreview",
        Effect.gitCmd repoPath (commitGitreviewCmd gitid)],
       some "push %s HEAD:refs/heads/master")

/-- Embedding of `create_gerrit_project`: when Gerrit does not yet know
the project, attempt creation (an effect), re-raising on failure; the
two Booleans are (raised, returned `project_created`). -/
def create_gerrit_project (env : Env) (project : String) :
    List Effect × Bool × Bool :=
  if !(env.projectList.contains project) then
    ([Effect.createGerritProject project], env.createProjectRaises project, true)
  else ([], false, false)

/-- Embedding of `create_local_mirror`: bare-init and chown the mirror
when absent; a failing bare init runs `rm -rf git_mirror_path` (the
literal string, as in the source) and raises. -/
def create_local_mirror (d : Defaults) (env : Env) (projectGit : String) :
    List Effect × Bool :=
  let mirrorPath := d.localGitDir ++ "/" ++ projectGit
  if !(env.mirrorExists mirrorPath) then
    if env.bareInitStatus mirrorPath != 0 then
      ([Effect.bareInit mirrorPath, Effect.shellCmd "rm -rf git_mirror_path"], true)
    else ([Effect.bareInit mirrorPath, Effect.chownRepo mirrorPath], false)
  else ([], false)

/-- Embedding of `push_to_gerrit`: run the push template instantiated
with the remote URL plus a tag push; a `None` template makes the
string interpolation raise inside the function's own `try`, which is
caught and logged. -/
def push_to_gerrit (repoPath project : String) (pushString : Option String)
    (remoteUrl : String) : List Effect :=
  match pushString with
  | some ps =>
    [Effect.pushToGerrit repoPath (pyFormatS ps remoteUrl),
     Effect.gitCmd repoPath ("push --tags " ++ remoteUrl)]
  | none => [Effect.logError ("Error pushing " ++ project ++ " to Gerrit.")]

/-- Embedding of the `create_github_project` invocation: one effect; the
Booleans are (raised, returned `created`). -/
def create_github_project (env : Env) (project : String) :
    List Effect × Bool × Bool :=
  if env.githubRaises project then ([Effect.createGithub project], true, false)
  else ([Effect.createGithub project], false, env.githubCreated project)

/-- Embedding of the per-project body of `manage_projects.main` (lines
600-680): the effects performed and whether the body raised (to be
caught at the loop boundary).  Gerrit project creation, the local
mirror, the local copy, the initial push plus replication, upstream
sync, `process_acls` and `create_github_project` are invoked in source
order; `process_acls` and `create_github_project` appear as single
invocation effects. -/
def processProject (d : Defaults) (env : Env) (sec : ProjSection) :
    List Effect × Bool :=
  if sec.options.contains "no-gerrit" then ([], false)
  else
    let repoPath := d.jeepybCacheDir ++ "/" ++ sec.project
    let projectGit := sec.project ++ ".git"
    let remoteUrl :=
      "ssh://" ++ d.gerritHost ++ ":" ++ toString d.gerritPort ++ "/" ++ sec.project
    let aclConfig := sec.aclConfigOpt.getD (d.aclDir ++ "/" ++ sec.project ++ ".config")
    let cg := create_gerrit_project env sec.project
    if cg.2.1 then (cg.1, true)
    else
      let projectCreated := cg.2.2
      let lm := create_local_mirror d env projectGit
      if lm.2 then (cg.1 ++ lm.1, true)
      else
        let mlc :=
          if !(env.repoExists repoPath) || projectCreated then
            make_local_copy repoPath sec.project env.projectList sec.upstream
              remoteUrl d.gerritHost d.gerritPort projectGit d.gerritGitid
          else ([Effect.updateLocal sec.project], none)
        let e6 := cg.1 ++ lm.1 ++ mlc.1 ++
          (if projectCreated then
            push_to_gerrit repoPath sec.project mlc.2 remoteUrl ++
              (if d.gerritReplicate then [Effect.replicate sec.project] else [])
           else []) ++
          (if sec.options.contains "track-upstream" then
            [Effect.syncUpstream sec.project]
           else []) ++
          (if aclConfig != "" then [Effect.processAcls sec.project aclConfig] else [])
        if sec.options.contains "has-github" || d.defaultHasGithub then
          let gh := create_github_project env sec.project
          if gh.2.1 then (e6 ++ gh.1, true)
          else
            (e6 ++ gh.1 ++
              (if gh.2.2 && d.gerritReplicate then [Effect.replicate sec.project]
               else []),
             false)
        else (e6, false)

/-- The project loop of `manage_projects.main`: the optional CLI project
filter, the per-project `try`/`except` that logs and continues, in source
order. -/
def mainLoop (d : Defaults) (env : Env) (filterList : List String) :
    List ProjSection → List Effect
  | [] => []
  | sec :: rest =>
    if !filterList.isEmpty && !(filterList.contains sec.project) then
      mainLoop d env filterList rest
    else
      let r := processProject d env sec
      r.1 ++
        (if r.2 then
          [Effect.logError ("Problems creating " ++ sec.project ++ ", moving on.")]
         else []) ++
        mainLoop d env filterList rest

/-- Embedding of `manage_projects.main` from the registry iteration on:
iterate `registry.configs_list`, run the loop, and in all cases unlink
the SSH wrapper in the `finally` block.  The Boolean records whether an
exception escaped (a `ValueError` from `configs_list`). -/
def manage_projects_main (d : Defaults) (env : Env) (filterList : List String)
    (entries : List ProjSection) : List Effect × Bool :=
  match configs_list entries with
  | Except.ok cl =>
    (mainLoop d env filterList cl ++ [Effect.unlinkSshWrapper], false)
  | Except.error _ => ([Effect.unlinkSshWrapper], true)

/-! ## Effect-trace model of `track_upstream.main` -/

/-- A persisted `project.cache` entry: the JSON object for one project,
as a key/Boolean association list. -/
abbrev CacheEntry := List (String × Bool)

/-- The persisted `project.cache`: project name to entry. -/
abbrev ProjectCache := List (String × CacheEntry)

/-- The external world one `track_upstream` run observes. -/
structure TrackEnv where
  projectList : List String
  repoExists : String → Bool
  fsckRc : String → Int
  fsckOut : String → String

/-- Embedding of the per-project body of `track_upstream.main` (lines
199-239): effects, whether the body raised, and the in-memory cache
after `setdefault`.  A missing cache entry is inserted empty by
`project_cache.setdefault(project, dict())`; the following
`project_cache[project]['pushed-to-gerrit']` then raises `KeyError`
before any effect. -/
def trackProject (d : Defaults) (env : TrackEnv) (cache : ProjectCache)
    (sec : ProjSection) : List Effect × Bool × ProjectCache :=
  if !(sec.options.contains "track-upstream") then ([], false, cache)
  else if sec.options.contains "no-gerrit" then ([], false, cache)
  else
    let repoPath := d.jeepybCacheDir ++ "/import/" ++ sec.project
    let projectGit := sec.project ++ ".git"
    let remoteUrl :=
      "ssh://" ++ d.gerritHost ++ ":" ++ toString d.gerritPort ++ "/" ++ sec.project
    let cache2 :=
      match List.lookup sec.project cache with
      | some _ => cache
      | none => cache ++ [(sec.project, [])]
    match List.lookup "pushed-to-gerrit" ((List.lookup sec.project cache2).getD []) with
    | none => ([], true, cache2)
    | some pushed =>
      if !pushed then ([], false, cache2)
      else
        let mlc :=
          if !(env.repoExists repoPath) then
            (make_local_copy repoPath sec.project env.projectList sec.upstream
              remoteUrl d.gerritHost d.gerritPort projectGit d.gerritGitid).1
          else [Effect.updateLocal sec.project]
        let rc := env.fsckRc repoPath
        let out := env.fsckOut repoPath
        if rc != 0 || hasSubstr out "zeroPaddedFilemode" then
          (mlc ++ [Effect.fsckEffect repoPath,
                   Effect.logError ("git fsck of " ++ repoPath ++ " failed")],
           true, cache2)
        else
          (mlc ++ [Effect.fsckEffect repoPath, Effect.syncUpstream sec.project],
           false, cache2)

/-- The project loop of `track_upstream.main`, threading the in-memory
cache and catching per-project exceptions. -/
def trackLoop (d : Defaults) (env : TrackEnv) (filterList : List String) :
    ProjectCache → List ProjSection → List Effect × ProjectCache
  | cache, [] => ([], cache)
  | cache, sec :: rest =>
    if !filterList.isEmpty && !(filterList.contains sec.project) then
      trackLoop d env filterList cache rest
    else
      let r := trackProject d env cache sec
      let t := trackLoop d env filterList r.2.2 rest
      (r.1 ++
        (if r.2.1 then
          [Effect.logError ("Problems creating " ++ sec.project ++ ", moving on.")]
         else []) ++
        t.1,
       t.2)

/-- Embedding of `track_upstream.main` from the registry iteration on:
the run's effects, the final in-memory cache, and whether an exception
escaped. -/
def track_upstream_main (d : Defaults) (env : TrackEnv)
    (filterList : List String) (cache : ProjectCache)
    (entries : List ProjSection) : List Effect × ProjectCache × Bool :=
  match configs_list entries with
  | Except.ok cl =>
    let r := trackLoop d env filterList cache cl
    (r.1 ++ [Effect.unlinkSshWrapper], r.2, false)
  | Except.error _ => ([Effect.unlinkSshWrapper], cache, true)

/-! ## Module-level name resolution (`jeepyb/projects.py`) -/

/-- The names `jeepyb/utils.py` defines at module level. -/
def utils_module_names : List String :=
  ["PROJECTS_INI", "PROJECTS_YAML", "log", "is_retired", "short_project_name",
   "run_command", "run_command_status", "git_command", "git_command_output",
   "make_ssh_wrapper", "make_local_copy", "fsck_repo", "ProjectsRegistry"]

/-- The attribute of `jeepyb.utils` that the module-level statement
`registry = u.ProjectsYamlRegistry(...)` of `jeepyb/projects.py`
resolves. -/
def projects_registry_attr : String := "ProjectsYamlRegistry"

/-- The names `jeepyb/projects.py` would define at module level if its
initialization succeeded. -/
def projects_module_names : List String :=
  ["registry", "git2lp", "_is_no_launchpad", "is_no_launchpad_bugs",
   "is_no_launchpad_blueprints", "is_direct_release",
   "_hardcoded_is_direct_release", "_hardcoded_git2lp"]

/-- Importing `jeepyb.projects`: its module-level initialization looks up
`ProjectsYamlRegistry` on `jeepyb.utils` and raises `AttributeError`
when the attribute does not exist. -/
def import_jeepyb_projects : Except String Unit :=
  if utils_module_names.contains projects_registry_attr then Except.ok ()
  else Except.error "AttributeError"

/-- Startup of `update_bug.py`: it executes `from jeepyb import projects`
before parsing any hook arguments, so a failing import aborts it. -/
def update_bug_startup : Except String Unit :=
  import_jeepyb_projects

/-- Startup of `close_pull_requests.py` (`import jeepyb.projects as p`). -/
def close_pull_requests_startup : Except String Unit :=
  import_jeepyb_projects

/-- Startup of `notify_impact.py` (`from jeepyb import projects`). -/
def notify_impact_startup : Except String Unit :=
  import_jeepyb_projects

/-! ## Effect predicates and concrete scenarios -/

/-- Is the effect a temporary-directory removal (`shutil.rmtree`-like)? -/
def Effect.isRemoveTree : Effect → Bool
  | Effect.removeTree _ => true
  | _ => false

/-- Is the effect a progress-cache write? -/
def Effect.isCacheWrite : Effect → Bool
  | Effect.cacheWrite _ _ _ => true
  | _ => false

/-- Effects that the embedded per-project bodies never emit: cache
writes, directory removals, and the SSH-wrapper unlink (which only the
outermost `finally` emits). -/
def Effect.isPhantom : Effect → Bool
  | Effect.removeTree _ => true
  | Effect.cacheWrite _ _ _ => true
  | Effect.unlinkSshWrapper => true
  | _ => false

/-- `projects.ini` defaults of the concrete scenarios. -/
def demoDefaults : Defaults :=
  { defaultHasGithub := false
    localGitDir := "/var/lib/git"
    jeepybCacheDir := "/var/lib/jeepyb"
    aclDir := "/home/gerrit2/acls"
    gerritHost := "review.example.org"
    gerritPort := 29418
    gerritGitid := "Project Creator <infra@example.org>"
    gerritReplicate := true }

/-- The `org/demo` registry record: no `upstream`, no options. -/
def demoSec : ProjSection :=
  { project := "org/demo", options := [], upstream := none,
    upstreamPfx := none, aclConfigOpt := none }

/-- First-run world for `org/demo`: Gerrit does not know the project,
nothing exists on disk, no external call fails. -/
def demoEnv : Env :=
  { projectList := []
    repoExists := fun _ => false
    mirrorExists := fun _ => false
    createProjectRaises := fun _ => false
    bareInitStatus := fun _ => 0
    githubRaises := fun _ => false
    githubCreated := fun _ => false }

/-- The effects of the first `manage_projects` run on `org/demo`. -/
def demoTrace : List Effect :=
  (manage_projects_main demoDefaults demoEnv [] [demoSec]).1

/-- Defaults with GitHub mirroring enabled by default. -/
def steadyDefaults : Defaults :=
  { demoDefaults with defaultHasGithub := true }

/-- A fully synchronized registry record. -/
def widgetSec : ProjSection :=
  { project := "org/widget", options := [], upstream := none,
    upstreamPfx := none, aclConfigOpt := none }

/-- Steady-state world for `org/widget`: Gerrit has the project, the
local copy and mirror exist, nothing fails. -/
def steadyEnv : Env :=
  { projectList := ["org/widget"]
    repoExists := fun _ => true
    mirrorExists := fun _ => true
    createProjectRaises := fun _ => false
    bareInitStatus := fun _ => 0
    githubRaises := fun _ => false
    githubCreated := fun _ => false }

/-- The effects of one steady-state `manage_projects` run. -/
def steadyTrace : List Effect :=
  (manage_projects_main steadyDefaults steadyEnv [] [widgetSec]).1

/-- The effects of two consecutive identical steady-state runs. -/
def steadyTwoRuns : List Effect := steadyTrace ++ steadyTrace

/-- A registry record whose Gerrit project creation raises. -/
def failSec : ProjSection :=
  { project := "org/fails", options := [], upstream := none,
    upstreamPfx := none, aclConfigOpt := none }

/-- World in which creating `org/fails` in Gerrit raises while
`org/demo` processes normally. -/
def failEnv : Env :=
  { demoEnv with createProjectRaises := fun p => p == "org/fails" }

/-- The effects of a run whose first project fails and whose second
project succeeds. -/
def failTrace : List Effect :=
  (manage_projects_main demoDefaults failEnv [] [failSec, demoSec]).1

/-- Sample registry: a live `org/name` project, an `-attic` organization,
a record with a `/retired.config` ACL, and a live single-word project. -/
def registrySample : List ProjSection :=
  [{ project := "openstack/nova", options := [], upstream := none,
     upstreamPfx := none, aclConfigOpt := none },
   { project := "foo-attic/old", options := [], upstream := none,
     upstreamPfx := none, aclConfigOpt := none },
   { project := "misc", options := [], upstream := none,
     upstreamPfx := none, aclConfigOpt := some "/home/gerrit2/acls/retired.config" },
   { project := "org/live", options := [], upstream := none,
     upstreamPfx := none, aclConfigOpt := some "/home/gerrit2/acls/org/live.config" }]

/-- Sample review database for the welcome-message scenario: the
uploader's email has exactly one distinct patch set. -/
def welcomeDb : String → Option Nat :=
  fun e => if e = "user@example.com" then some 1 else some 5

/-- A fetch/update command that fails on every attempt. -/
def alwaysFail : Nat → Int := fun _ => 1

/-- An `ls-files` result that would succeed immediately. -/
def lsStub : Nat → Int × String := fun _ => (0, "project.config")

/-- A group query that never returns a row. -/
def noRows : Nat → Option String := fun _ => none

/-- A persisted cache that knows one other project only. -/
def trackCacheSample : ProjectCache :=
  [("other/proj", [("pushed-to-gerrit", true)])]

/-- A tracked project absent from the persisted cache. -/
def trackSecSample : ProjSection :=
  { project := "new/proj", options := ["track-upstream"], upstream := none,
    upstreamPfx := none, aclConfigOpt := none }

/-- A benign world for the `track_upstream` scenario. -/
def trackEnvSample : TrackEnv :=
  { projectList := []
    repoExists := fun _ => false
    fsckRc := fun _ => 0
    fsckOut := fun _ => "" }

/-- A world whose `git fsck --full` exits 0 but reports the
zero-padded-filemode consistency warning. -/
def badFsckEnv : TrackEnv :=
  { projectList := ["good/proj"]
    repoExists := fun _ => true
    fsckRc := fun _ => 0
    fsckOut := fun _ =>
      "warning in commit abc: zeroPaddedFilemode: contains zero-padded file modes" }

/-- A tracked project that would otherwise be synced. -/
def goodSec : ProjSection :=
  { project := "good/proj", options := ["track-upstream"], upstream := none,
    upstreamPfx := none, aclConfigOpt := none }

/-- A cache marking `good/proj` as already pushed to Gerrit. -/
def goodCache : ProjectCache :=
  [("good/proj", [("pushed-to-gerrit", true)])]

/-! ## Theorems -/

/-- C1: the `find_bugs` scanner matches each of the lines
`Closes-Bug: 555555`, `bug # 555555`, `Partial-Bug: lp bug # 555555` and
`Fixes: bug # 555` exactly once, extracting the bug number and mapping
the matched prefix to the keywords `closes`, `closes` (default when no
prefix participates), `partial` and `fixes` respectively; the keyword
determines `changes_needed`: closes/fixes/resolves allow comment,
in-progress, fix-committed and fix-released, `partial` allows comment
and in-progress, and related/impacts/affects allow only the sidenote. -/
theorem find_bugs_reference_patterns :
    (bugKeywords "Closes-Bug: 555555" = [("555555", "closes")]) ∧
    (bugMatches "bug # 555555" = [(none, "555555")]) ∧
    (bugKeywords "bug # 555555" = [("555555", "closes")]) ∧
    (bugKeywords "Partial-Bug: lp bug # 555555" = [("555555", "partial")]) ∧
    (bugKeywords "Fixes: bug # 555" = [("555", "fixes")]) ∧
    (changes_needed "closes" =
      ["add_comment", "set_in_progress", "set_fix_committed", "set_fix_released"]) ∧
    (changes_needed "fixes" =
      ["add_comment", "set_in_progress", "set_fix_committed", "set_fix_released"]) ∧
    (changes_needed "resolves" =
      ["add_comment", "set_in_progress", "set_fix_committed", "set_fix_released"]) ∧
    (changes_needed "partial" = ["add_comment", "set_in_progress"]) ∧
    (changes_needed "related" = ["sidenote"]) ∧
    (changes_needed "impacts" = ["sidenote"]) ∧
    (changes_needed "affects" = ["sidenote"]) := by
  decide

/-- Association lookup skips a block in which the key is absent. -/
theorem lookup_append_of_none {α β : Type} [BEq α] (a : α) :
    ∀ (l1 l2 : List (α × β)), List.lookup a l1 = none →
      List.lookup a (l1 ++ l2) = List.lookup a l2
  | [], _, _ => rfl
  | (k, v) :: t, l2, h => by
    simp only [List.lookup, List.cons_append] at h ⊢
    cases hk : a == k with
    | true => simp [hk] at h
    | false =>
      simp only [hk] at h ⊢
      exact lookup_append_of_none a t l2 h

/-- `make_local_copy` never syncs upstream branches. -/
theorem make_local_copy_no_sync (p repoPath project : String)
    (projectList : List String) (upstream : Option String)
    (remoteUrl host : String) (port : Nat) (projectGit gitid : String) :
    Effect.syncUpstream p ∉ (make_local_copy repoPath project projectList
      upstream remoteUrl host port projectGit gitid).1 := by
  unfold make_local_copy
  split
  · cases upstream <;> simp
  · cases upstream <;> simp

/-- C3: `fsck_repo` raises exactly when the `git fsck --full` exit code
is nonzero or the output holds the substring `zeroPaddedFilemode`
(regardless of exit code), and returns normally exactly when the exit
code is zero and the substring is absent; in `track_upstream` a
repository whose fsck output holds that substring is never
upstream-synced (imported). -/
theorem fsck_repo_rejects_iff (rc : Int) (out : String) (d : Defaults)
    (env : TrackEnv) (cache : ProjectCache) (sec : ProjSection) :
    (fsck_repo rc out = Except.error "git fsck failed not importing" ↔
      (rc ≠ 0 ∨ hasSubstr out "zeroPaddedFilemode" = true)) ∧
    (fsck_repo rc out = Except.ok () ↔
      (rc = 0 ∧ hasSubstr out "zeroPaddedFilemode" = false)) ∧
    (hasSubstr (env.fsckOut (d.jeepybCacheDir ++ "/import/" ++ sec.project))
        "zeroPaddedFilemode" = true →
      Effect.syncUpstream sec.project ∉ (trackProject d env cache sec).1) := by
  refine ⟨?_, ?_, ?_⟩
  · unfold fsck_repo
    by_cases h : rc = 0 <;> cases h2 : hasSubstr out "zeroPaddedFilemode" <;>
      simp [h, h2]
  · unfold fsck_repo
    by_cases h : rc = 0 <;> cases h2 : hasSubstr out "zeroPaddedFilemode" <;>
      simp [h, h2]
  · intro hsub hmem
    simp only [trackProject] at hmem
    by_cases ht : "track-upstream" ∈ sec.options
    case neg => simp [ht] at hmem
    case pos =>
    by_cases hng : "no-gerrit" ∈ sec.options
    case pos => simp [ht, hng] at hmem
    case neg =>
    cases hlk : List.lookup sec.project cache with
    | none =>
      have hl2 : List.lookup sec.project (cache ++ [(sec.project, [])]) = some [] := by
        rw [lookup_append_of_none sec.project cache [(sec.project, [])] hlk]
        simp [List.lookup]
      simp [ht, hng, hlk, hl2, List.lookup] at hmem
    | some e0 =>
      cases hpg : List.lookup "pushed-to-gerrit" e0 with
      | none => simp [ht, hng, hlk, hpg] at hmem
      | some pushed =>
        cases pushed with
        | false => simp [ht, hng, hlk, hpg] at hmem
        | true =>
          by_cases hre :
            env.repoExists (d.jeepybCacheDir ++ "/import/" ++ sec.project) = false
          · simp [ht, hng, hlk, hpg, hsub, hre, make_local_copy_no_sync] at hmem
          · simp [ht, hng, hlk, hpg, hsub, hre] at hmem

/-- C3 witness: a zero exit code whose output carries the
zero-padded-filemode warning is rejected, and the otherwise-syncable
tracked project `good/proj` is never upstream-synced. -/
theorem fsck_repo_rejects_iff_witness :
    fsck_repo 0 "warning: zeroPaddedFilemode found" =
      Except.error "git fsck failed not importing" ∧
    Effect.syncUpstream "good/proj" ∉
      (trackProject demoDefaults badFsckEnv goodCache goodSec).1 := by
  have h := fsck_repo_rejects_iff 0 "warning: zeroPaddedFilemode found"
    demoDefaults badFsckEnv goodCache goodSec
  exact ⟨h.1.mpr (Or.inr (by decide)), h.2.2 (by decide)⟩

/-- C9: importing `jeepyb.projects` raises `AttributeError`, because its
module-level `u.ProjectsYamlRegistry(...)` names an attribute
`jeepyb.utils` does not define; hence `update_bug`,
`close_pull_requests` and `notify_impact` fail at startup, and the
functions those handlers call (`project_to_groups`, `is_delay_release`,
`docimpact_target`, `has_github`) do not exist in the module. -/
theorem projects_module_import_fails :
    (utils_module_names.contains "ProjectsYamlRegistry" = false) ∧
    (import_jeepyb_projects = Except.error "AttributeError") ∧
    (update_bug_startup = Except.error "AttributeError") ∧
    (close_pull_requests_startup = Except.error "AttributeError") ∧
    (notify_impact_startup = Except.error "AttributeError") ∧
    (projects_module_names.contains "project_to_groups" = false) ∧
    (projects_module_names.contains "is_delay_release" = false) ∧
    (projects_module_names.contains "docimpact_target" = false) ∧
    (projects_module_names.contains "has_github" = false) :=
  ⟨by decide, rfl, rfl, rfl, rfl, by decide, by decide, by decide, by decide⟩

/-- C2 counterexample: in the steady state the claim requires (project
already pushed, ACL file unchanged), a repeated `manage_projects` run
still re-invokes `process_acls` and the GitHub creation step: each of
two consecutive identical runs emits both invocations once, because the
script consults no progress cache. -/
theorem manage_projects_repeat_run_counterexample :
    (steadyTrace.count
      (Effect.processAcls "org/widget" "/home/gerrit2/acls/org/widget.config") = 1) ∧
    (steadyTrace.count (Effect.createGithub "org/widget") = 1) ∧
    (steadyTwoRuns.count
      (Effect.processAcls "org/widget" "/home/gerrit2/acls/org/widget.config") = 2) ∧
    (steadyTwoRuns.count (Effect.createGithub "org/widget") = 2) := by
  decide

/-- C7 counterexample: the first run on `org/demo` records neither
`project-created` nor `pushed-to-gerrit` in any progress cache — the
run's trace holds no cache write at all. -/
theorem manage_projects_no_cache_record_counterexample :
    Effect.cacheWrite "org/demo" "project-created" true ∉ demoTrace ∧
    Effect.cacheWrite "org/demo" "pushed-to-gerrit" true ∉ demoTrace ∧
    demoTrace.all (fun e => !e.isCacheWrite) = true := by
  decide

/-- C7 (amended): a first `manage_projects` run on `org/demo` (no
upstream, no prior state) creates the project in Gerrit, initializes a
fresh local repository, writes a `.gitreview` carrying the configured
host, port and project, commits it, pushes it via the template
`push %s HEAD:refs/heads/master` instantiated with the Gerrit remote
URL, replicates, and invokes ACL processing — with no progress-cache
record, which the script does not maintain. -/
theorem manage_projects_first_run_trace :
    (manage_projects_main demoDefaults demoEnv [] [demoSec] =
      ([Effect.createGerritProject "org/demo",
        Effect.bareInit "/var/lib/git/org/demo.git",
        Effect.chownRepo "/var/lib/git/org/demo.git",
        Effect.gitInit "/var/lib/jeepyb/org/demo",
        Effect.gitCmd "/var/lib/jeepyb/org/demo"
          "remote add origin ssh://review.example.org:29418/org/demo",
        Effect.writeGitreview "/var/lib/jeepyb/org/demo"
          "[gerrit]\nhost=review.example.org\nport=29418\nproject=org/demo.git\n",
        Effect.gitCmd "/var/lib/jeepyb/org/demo" "add .gitreview",
        Effect.gitCmd "/var/lib/jeepyb/org/demo"
          (commitGitreviewCmd "Project Creator <infra@example.org>"),
        Effect.pushToGerrit "/var/lib/jeepyb/org/demo"
          "push ssh://review.example.org:29418/org/demo HEAD:refs/heads/master",
        Effect.gitCmd "/var/lib/jeepyb/org/demo"
          "push --tags ssh://review.example.org:29418/org/demo",
        Effect.replicate "org/demo",
        Effect.processAcls "org/demo" "/home/gerrit2/acls/org/demo.config",
        Effect.unlinkSshWrapper], false)) ∧
    ((make_local_copy "/var/lib/jeepyb/org/demo" "org/demo" [] none
        "ssh://review.example.org:29418/org/demo" "review.example.org" 29418
        "org/demo.git" "Project Creator <infra@example.org>").2 =
      some "push %s HEAD:refs/heads/master") := by
  decide

/-- C8 counterexample: in a run whose first project raises, the failure
is logged and the next project still processes, but no effect of the run
removes any temporary per-project working directory — `manage_projects`
has no such `finally` block. -/
theorem manage_projects_no_tempdir_removal_counterexample :
    Effect.logError "Problems creating org/fails, moving on." ∈ failTrace ∧
    Effect.createGerritProject "org/demo" ∈ failTrace ∧
    failTrace.all (fun e => !e.isRemoveTree) = true := by
  decide

/-- Splitting never yields an empty chunk list. -/
theorem splitChar_ne_nil (sep : Char) : ∀ l, splitChar sep l ≠ []
  | [] => by simp [splitChar]
  | c :: t => by
    simp only [splitChar]
    split
    · simp
    · split
      · simp
      · simp

/-- The number of chunks is the separator count plus one. -/
theorem length_splitChar (sep : Char) : ∀ l : List Char,
    (splitChar sep l).length = l.count sep + 1
  | [] => by simp [splitChar]
  | c :: t => by
    have ih := length_splitChar sep t
    simp only [splitChar]
    by_cases h : c = sep
    · simp [h, List.count_cons, ih]
    · cases hr : splitChar sep t with
      | nil => exact absurd hr (splitChar_ne_nil sep t)
      | cons a b =>
        rw [hr] at ih
        simp [h, List.count_cons, ← ih, Ne.symm h]

/-- On a project name with at most one slash, `is_retired` returns
normally with the Boolean retirement test. -/
theorem is_retired_eq (e : ProjSection) (h : e.project.data.count '/' ≤ 1) :
    is_retired e = Except.ok (retiredB e) := by
  by_cases h1 : pyEndsWith (e.aclConfigOpt.getD "") "/retired.config" = true
  · simp [is_retired, retiredB, h1]
  · by_cases h2 : e.project.data.contains '/' = true
    · have hmem : '/' ∈ e.project.data := by
        simpa using h2
      have hcount : e.project.data.count '/' = 1 := by
        have := List.count_pos_iff.mpr hmem
        omega
      have hlen : (splitChar '/' e.project.data).length = 2 := by
        rw [length_splitChar, hcount]
      obtain ⟨a, b, hab⟩ := List.length_eq_two.mp hlen
      simp [is_retired, retiredB, h1, h2, hab, hmem]
    · have hmem : '/' ∉ e.project.data := by
        simpa using h2
      have hcount : e.project.data.count '/' = 0 :=
        List.count_eq_zero.mpr hmem
      have hlen : (splitChar '/' e.project.data).length = 1 := by
        rw [length_splitChar, hcount]
      obtain ⟨a, hab⟩ := List.length_eq_one.mp hlen
      simp [is_retired, retiredB, h1, h2, hab, hmem]

/-- C4: on a registry whose project names have at most one slash (the
documented `org/name` shape), `configs_list` returns normally and
retains, in order, exactly the entries that are not retired: it excludes
an entry exactly when its `acl-config` ends with `/retired.config` or
its organization segment ends with `-attic`. -/
theorem configs_list_excludes_retired :
    ∀ entries : List ProjSection,
    (∀ e ∈ entries, e.project.data.count '/' ≤ 1) →
    configs_list entries =
      Except.ok (entries.filter (fun e => !retiredB e))
  | [], _ => by simp [configs_list]
  | e :: t, h => by
    have he := is_retired_eq e (h e (by simp))
    have ht := configs_list_excludes_retired t (fun x hx => h x (by simp [hx]))
    simp only [configs_list, he, ht, List.filter_cons]
    cases hb : retiredB e <;> simp [hb, Except.bind, bind, pure, Except.pure]

/-- C4 witness: the sample registry satisfies the name hypothesis and
keeps exactly its two live records. -/
theorem configs_list_excludes_retired_witness :
    configs_list registrySample =
      Except.ok
        [{ project := "openstack/nova", options := [], upstream := none,
           upstreamPfx := none, aclConfigOpt := none },
         { project := "org/live", options := [], upstream := none,
           upstreamPfx := none,
           aclConfigOpt := some "/home/gerrit2/acls/org/live.config" }] := by
  rw [configs_list_excludes_retired registrySample (by decide)]
  rfl

/-- C5: when the uploader string holds a parenthesized email,
`is_newbie` returns `True` exactly when the review database counts one
distinct patch set for that email (so a count of 0 or more than 1 gives
a non-`True` result), and the welcome message is posted exactly when
additionally the patchset argument is `1` and dryrun is off. -/
theorem is_newbie_spec (db : String → Option Nat) (uploader patchset : String)
    (dryrun : Bool) (email : String)
    (h : uploaderEmail uploader = some email) :
    (is_newbie db uploader = some true ↔ db email = some 1) ∧
    (welcome_posts db uploader patchset dryrun = true ↔
      (is_newbie db uploader = some true ∧ patchset = "1" ∧ dryrun = false)) := by
  constructor
  · unfold is_newbie
    rw [h]
    cases hdb : db email <;> simp [hdb]
  · unfold welcome_posts
    cases hn : is_newbie db uploader with
    | none => simp [pyTruthy]
    | some b => cases b <;> simp [pyTruthy, and_assoc]

/-- C5 witness: a first-time contributor with exactly one distinct patch
set is classified newbie and the message is posted on patch set 1
without dryrun. -/
theorem is_newbie_spec_witness :
    is_newbie welcomeDb "User A. Example (user@example.com)" = some true ∧
    welcome_posts welcomeDb "User A. Example (user@example.com)" "1" false = true := by
  have h := is_newbie_spec welcomeDb "User A. Example (user@example.com)" "1" false
    "user@example.com" (by rfl)
  exact ⟨h.1.mpr (by rfl), h.2.mpr ⟨h.1.mpr (by rfl), rfl, rfl⟩⟩

/-- The first `fetch_config` loop runs at most one attempt per index. -/
theorem pollMeta_attempts_le (f : Nat → Int) : ∀ l, (pollMeta f l).1 ≤ l.length
  | [] => by simp [pollMeta]
  | x :: rest => by
    simp only [pollMeta]
    split
    · simp
    · cases rest with
      | nil => simp
      | cons y t =>
        have ih := pollMeta_attempts_le f (y :: t)
        simpa using Nat.add_le_add_right ih 1

/-- The first loop's final status is zero exactly when some listed
attempt succeeds. -/
theorem pollMeta_status_zero_iff (f : Nat → Int) : ∀ l,
    ((pollMeta f l).2 = 0 ↔ ∃ x ∈ l, f x = 0)
  | [] => by simp [pollMeta]
  | x :: rest => by
    simp only [pollMeta]
    by_cases h : f x = 0
    · simp [h]
    · cases rest with
      | nil => simp [h]
      | cons y t =>
        have ih := pollMeta_status_zero_iff f (y :: t)
        simp [h, ih]

/-- The second `fetch_config` loop runs at most one attempt per index. -/
theorem pollLs_attempts_le (g : Nat → Int) (hf : Nat → Int × String) :
    ∀ l s out, (pollLs g hf l s out).1 ≤ l.length
  | [], _, _ => by simp [pollLs]
  | x :: rest, s, out => by
    simp only [pollLs]
    split
    · cases rest with
      | nil => simp
      | cons y t =>
        have ih := pollLs_attempts_le g hf (y :: t) (g x) out
        simpa using Nat.add_le_add_right ih 1
    · split
      · cases rest with
        | nil => simp
        | cons y t =>
          have ih := pollLs_attempts_le g hf (y :: t) (hf x).1 (hf x).2
          simpa using Nat.add_le_add_right ih 1
      · simp

/-- When `remote update` fails on every attempt, the second loop ends
with a nonzero status and the initial (empty) output. -/
theorem pollLs_all_fail (g : Nat → Int) (hf : Nat → Int × String) :
    ∀ l s out, l ≠ [] → (∀ x ∈ l, g x ≠ 0) →
      (pollLs g hf l s out).2.1 ≠ 0 ∧ (pollLs g hf l s out).2.2 = out
  | [], _, _, hne, _ => absurd rfl hne
  | x :: rest, s, out, _, hall => by
    have hx : g x ≠ 0 := hall x (by simp)
    simp only [pollLs, if_pos hx]
    cases rest with
    | nil => simpa using hx
    | cons y t =>
      have ih := pollLs_all_fail g hf (y :: t) (g x) out (by simp)
        (fun z hz => hall z (by simp [hz]))
      simpa using ih

/-- The `_get_group_uuid` loop runs at most one attempt per index. -/
theorem pollGroup_attempts_le (db : Nat → Option String) :
    ∀ l, (pollGroup db l).1 ≤ l.length
  | [] => by simp [pollGroup]
  | x :: rest => by
    simp only [pollGroup]
    cases hdb : db x with
    | some u => simp
    | none =>
      have ih := pollGroup_attempts_le db rest
      simpa using Nat.add_le_add_right ih 1

/-- The `_get_group_uuid` loop yields `none` exactly when no listed
attempt returns a row. -/
theorem pollGroup_none_iff (db : Nat → Option String) : ∀ l,
    ((pollGroup db l).2 = none ↔ ∀ x ∈ l, db x = none)
  | [] => by simp [pollGroup]
  | x :: rest => by
    simp only [pollGroup]
    cases hdb : db x with
    | some u => simp [hdb]
    | none =>
      have ih := pollGroup_none_iff db rest
      simp [hdb, ih]

/-- When no attempt returns a row, the loop exhausts all attempts. -/
theorem pollGroup_all_none (db : Nat → Option String) :
    ∀ l, (∀ x ∈ l, db x = none) → pollGroup db l = (l.length, none)
  | [], _ => by simp [pollGroup]
  | x :: rest, hall => by
    have hx : db x = none := hall x (by simp)
    have ih := pollGroup_all_none db rest (fun z hz => hall z (by simp [hz]))
    simp [pollGroup, hx, ih]

/-- C6: every polling loop is bounded by 10 attempts and never retries
indefinitely: both `fetch_config` loops make at most 10 attempts and
exhaustion raises `FetchConfigException`; `_get_group_uuid` makes at
most 10 attempts and yields no UUID exactly when all ten queries return
no row; `get_group_uuid` then falls back to the well-known system-group
UUID, else creates the group and re-queries (again at most 10 attempts)
before yielding no UUID. -/
theorem polling_loops_bounded (f g : Nat → Int) (hf : Nat → Int × String)
    (cs : Int) (db1 db2 : Nat → Option String) (grp : String) :
    ((fetch_config f g hf cs).metaAttempts ≤ 10) ∧
    ((fetch_config f g hf cs).lsAttempts ≤ 10) ∧
    ((∀ x, x < 10 → f x ≠ 0) → (fetch_config f g hf cs).result = Except.error ()) ∧
    ((∀ x, x < 10 → g x ≠ 0) → (fetch_config f g hf cs).result = Except.error ()) ∧
    ((get_group_uuid_inner db1).1 ≤ 10) ∧
    (((get_group_uuid_inner db1).2 = none) ↔ (∀ x, x < 10 → db1 x = none)) ∧
    ((get_group_uuid db1 db2 grp).firstAttempts ≤ 10) ∧
    ((get_group_uuid db1 db2 grp).secondAttempts ≤ 10) ∧
    ((∀ x, x < 10 → db1 x = none) →
      get_group_uuid db1 db2 grp =
        (match List.lookup grp GERRIT_SYSTEM_GROUPS with
         | some su => ⟨10, false, 0, some su⟩
         | none =>
           ⟨10, true, (get_group_uuid_inner db2).1, (get_group_uuid_inner db2).2⟩)) := by
  have hm := pollMeta_attempts_le f (List.range 10)
  have hls := pollLs_attempts_le g hf (List.range 10) 0 ""
  rw [List.length_range] at hm hls
  have hg1 := pollGroup_attempts_le db1 (List.range 10)
  have hg2 := pollGroup_attempts_le db2 (List.range 10)
  rw [List.length_range] at hg1 hg2
  refine ⟨?_, ?_, ?_, ?_, ?_, ?_, ?_, ?_, ?_⟩
  · simp only [fetch_config]
    by_cases h1 : (pollMeta f (List.range 10)).2 ≠ 0
    · simp [h1, hm]
    · by_cases h2 : (pyStrip (pollLs g hf (List.range 10) 0 "").2.2 !=
          "project.config" || (pollLs g hf (List.range 10) 0 "").2.1 != 0) = true
      · simp [h1, h2, hm]
      · by_cases h3 : cs ≠ 0
        · simp [h1, h2, h3, hm]
        · simp [h1, h2, h3, hm]
  · simp only [fetch_config]
    by_cases h1 : (pollMeta f (List.range 10)).2 ≠ 0
    · simp [h1]
    · by_cases h2 : (pyStrip (pollLs g hf (List.range 10) 0 "").2.2 !=
          "project.config" || (pollLs g hf (List.range 10) 0 "").2.1 != 0) = true
      · simp [h1, h2, hls]
      · by_cases h3 : cs ≠ 0
        · simp [h1, h2, h3, hls]
        · simp [h1, h2, h3, hls]
  · intro hall
    have hne : (pollMeta f (List.range 10)).2 ≠ 0 := by
      intro h0
      obtain ⟨x, hx, hfx⟩ := (pollMeta_status_zero_iff f (List.range 10)).mp h0
      exact hall x (List.mem_range.mp hx) hfx
    simp [fetch_config, hne]
  · intro hall
    by_cases hne : (pollMeta f (List.range 10)).2 ≠ 0
    · simp [fetch_config, hne]
    · obtain ⟨hne2, hout⟩ := pollLs_all_fail g hf (List.range 10) 0 ""
        (by simp) (fun z hz => hall z (List.mem_range.mp hz))
      have hcond :
          (pyStrip (pollLs g hf (List.range 10) 0 "").2.2 != "project.config" ||
            (pollLs g hf (List.range 10) 0 "").2.1 != 0) = true := by
        rw [hout]
        simp [bne, hne2]
      simp only [fetch_config, if_neg hne, hcond]
      simp
  · exact hg1
  · rw [get_group_uuid_inner, pollGroup_none_iff]
    constructor
    · exact fun h x hx => h x (List.mem_range.mpr hx)
    · exact fun h x hx => h x (List.mem_range.mp hx)
  · simp only [get_group_uuid]
    cases hq : (get_group_uuid_inner db1).2 <;>
      cases hlk : List.lookup grp GERRIT_SYSTEM_GROUPS <;>
        simpa [get_group_uuid_inner] using hg1
  · simp only [get_group_uuid]
    cases hq : (get_group_uuid_inner db1).2 <;>
      cases hlk : List.lookup grp GERRIT_SYSTEM_GROUPS <;>
        simp [get_group_uuid_inner, hg2]
  · intro hall
    have h1 : get_group_uuid_inner db1 = (10, none) := by
      rw [get_group_uuid_inner,
        pollGroup_all_none db1 (List.range 10)
          (fun z hz => hall z (List.mem_range.mp hz))]
      simp
    cases hlk : List.lookup grp GERRIT_SYSTEM_GROUPS <;>
      simp [get_group_uuid, h1, hlk]

/-- C6 witness: with every fetch failing, `fetch_config` raises after
its bounded polling; with no DB rows and an unknown group name,
`get_group_uuid` creates the group, re-queries ten more times, and
yields no UUID. -/
theorem polling_loops_bounded_witness :
    (fetch_config alwaysFail alwaysFail lsStub 0).result = Except.error () ∧
    get_group_uuid noRows noRows "mygroup" = ⟨10, true, 10, none⟩ := by
  have h := polling_loops_bounded alwaysFail alwaysFail lsStub 0 noRows noRows "mygroup"
  refine ⟨h.2.2.1 (fun x _ => by simp [alwaysFail]), ?_⟩
  have h9 := h.2.2.2.2.2.2.2.2 (fun x _ => rfl)
  rw [h9]
  rfl

/-- An effect that is not phantom is not a directory removal. -/
theorem phantom_removeTree (e : Effect) :
    e.isPhantom = false → e.isRemoveTree = false := by
  cases e <;> simp [Effect.isPhantom, Effect.isRemoveTree]

/-- An effect that is not phantom is not a cache write. -/
theorem phantom_cacheWrite (e : Effect) :
    e.isPhantom = false → e.isCacheWrite = false := by
  cases e <;> simp [Effect.isPhantom, Effect.isCacheWrite]

/-- `make_local_copy` emits no phantom effect. -/
theorem make_local_copy_benign (repoPath project : String)
    (projectList : List String) (upstream : Option String)
    (remoteUrl host : String) (port : Nat) (projectGit gitid : String) :
    ((make_local_copy repoPath project projectList upstream remoteUrl
      host port projectGit gitid).1.all fun e => !e.isPhantom) = true := by
  unfold make_local_copy
  split
  · cases upstream <;> simp [Effect.isPhantom]
  · cases upstream <;> simp [Effect.isPhantom]

/-- All-quantification distributes over a branch. -/
theorem all_ite (c : Prop) [Decidable c] (a b : List Effect)
    (p : Effect → Bool) :
    (if c then a else b).all p = if c then a.all p else b.all p := by
  split <;> rfl

/-- First projection of a branching pair. -/
theorem fst_ite {α β : Type} (c : Prop) [Decidable c] (a b : α × β) :
    (if c then a else b).1 = if c then a.1 else b.1 := by
  split <;> rfl

/-- `create_gerrit_project` emits no phantom effect. -/
theorem create_gerrit_project_benign (env : Env) (project : String) :
    ((create_gerrit_project env project).1.all fun e => !e.isPhantom) = true := by
  unfold create_gerrit_project
  split <;> simp [Effect.isPhantom]

/-- `create_local_mirror` emits no phantom effect. -/
theorem create_local_mirror_benign (d : Defaults) (env : Env)
    (projectGit : String) :
    ((create_local_mirror d env projectGit).1.all fun e => !e.isPhantom) = true := by
  simp only [create_local_mirror]
  split
  · split <;> simp [Effect.isPhantom]
  · simp

/-- `push_to_gerrit` emits no phantom effect. -/
theorem push_to_gerrit_benign (repoPath project : String)
    (pushString : Option String) (remoteUrl : String) :
    ((push_to_gerrit repoPath project pushString remoteUrl).all
      fun e => !e.isPhantom) = true := by
  unfold push_to_gerrit
  cases pushString <;> simp [Effect.isPhantom]

/-- The `create_github_project` invocation emits no phantom effect. -/
theorem create_github_project_benign (env : Env) (project : String) :
    ((create_github_project env project).1.all fun e => !e.isPhantom) = true := by
  unfold create_github_project
  split <;> simp [Effect.isPhantom]

/-- The per-project body of `manage_projects.main` emits no phantom
effect. -/
theorem processProject_benign (d : Defaults) (env : Env) (sec : ProjSection) :
    ((processProject d env sec).1.all fun e => !e.isPhantom) = true := by
  unfold processProject
  simp only [fst_ite, all_ite, List.all_append,
    create_gerrit_project_benign, create_local_mirror_benign,
    push_to_gerrit_benign, create_github_project_benign,
    make_local_copy_benign, Bool.true_and, Bool.and_true, List.all_nil]
  simp [Effect.isPhantom, ite_self]

/-- The project loop distributes over list append: a failure inside one
project's body never aborts the loop, so the effects of later projects
always follow. -/
theorem mainLoop_append (d : Defaults) (env : Env) (fl : List String) :
    ∀ l1 l2, mainLoop d env fl (l1 ++ l2) =
      mainLoop d env fl l1 ++ mainLoop d env fl l2
  | [], l2 => by simp [mainLoop]
  | sec :: t, l2 => by
    have ih := mainLoop_append d env fl t l2
    simp only [List.cons_append, mainLoop]
    split
    · exact ih
    · simp [ih]

/-- The project loop of `manage_projects.main` emits no phantom effect. -/
theorem mainLoop_benign (d : Defaults) (env : Env) (fl : List String) :
    ∀ secs, ((mainLoop d env fl secs).all fun e => !e.isPhantom) = true
  | [] => by simp [mainLoop]
  | sec :: rest => by
    have ih := mainLoop_benign d env fl rest
    have hp := processProject_benign d env sec
    simp only [mainLoop]
    split
    · exact ih
    · cases hr : (processProject d env sec).2 <;>
        simp_all [List.all_append, List.all_eq_true, Effect.isPhantom]

/-- The loop never unlinks the SSH wrapper. -/
theorem mainLoop_no_unlink (d : Defaults) (env : Env) (fl : List String)
    (secs : List ProjSection) :
    Effect.unlinkSshWrapper ∉ mainLoop d env fl secs := by
  intro hmem
  have h := mainLoop_benign d env fl secs
  rw [List.all_eq_true] at h
  simpa [Effect.isPhantom] using h _ hmem

/-- C8 (amended): per-project exceptions are caught at the loop
boundary and iteration continues (the loop's effects distribute over
list decomposition), and the SSH-wrapper temp file is deleted exactly
once, as the final effect, even when bodies fail; but no effect of any
run removes a temporary per-project working directory —
`manage_projects.main` has no per-project `finally` cleanup. -/
theorem manage_projects_loop_error_handling (d : Defaults) (env : Env)
    (fl : List String) (entries l1 l2 : List ProjSection) :
    (mainLoop d env fl (l1 ++ l2) =
      mainLoop d env fl l1 ++ mainLoop d env fl l2) ∧
    ((manage_projects_main d env fl entries).1.count
      Effect.unlinkSshWrapper = 1) ∧
    ((manage_projects_main d env fl entries).1.getLast? =
      some Effect.unlinkSshWrapper) ∧
    ((manage_projects_main d env fl entries).1.all
      (fun e => !e.isRemoveTree) = true) := by
  refine ⟨mainLoop_append d env fl l1 l2, ?_, ?_, ?_⟩
  · unfold manage_projects_main
    cases hc : configs_list entries with
    | ok cl =>
      simp [List.count_append,
        List.count_eq_zero.mpr (mainLoop_no_unlink d env fl cl)]
    | error m => simp
  · unfold manage_projects_main
    cases hc : configs_list entries with
    | ok cl => simp
    | error m => simp
  · unfold manage_projects_main
    cases hc : configs_list entries with
    | ok cl =>
      have h := mainLoop_benign d env fl cl
      rw [List.all_eq_true] at h ⊢
      intro e he
      simp only [List.mem_append, List.mem_singleton] at he
      rcases he with he | rfl
      · have hb := h e he
        rw [Bool.not_eq_true'] at hb
        simp [phantom_removeTree e hb]
      · rfl
    | error m => simp [Effect.isRemoveTree]

/-- C2 (amended): `manage_projects.main` maintains no progress cache, so
nothing suppresses re-invocation: in a steady-state world (project
already in Gerrit, local copy and mirror present, nonempty ACL path,
GitHub mirroring enabled, no failures) every run invokes `process_acls`
exactly once and the GitHub creation step exactly once, and two
consecutive identical runs invoke each twice. -/
theorem manage_projects_no_cache_reinvocation (d : Defaults) (env : Env)
    (sec : ProjSection)
    (h1 : sec.options.contains "no-gerrit" = false)
    (h2 : env.projectList.contains sec.project = true)
    (h3 : env.mirrorExists (d.localGitDir ++ "/" ++ (sec.project ++ ".git")) = true)
    (h4 : env.repoExists (d.jeepybCacheDir ++ "/" ++ sec.project) = true)
    (h5 : (sec.aclConfigOpt.getD (d.aclDir ++ "/" ++ sec.project ++ ".config") != "") = true)
    (h6 : (sec.options.contains "has-github" || d.defaultHasGithub) = true)
    (h7 : env.githubRaises sec.project = false) :
    ((processProject d env sec).1.count
      (Effect.processAcls sec.project
        (sec.aclConfigOpt.getD (d.aclDir ++ "/" ++ sec.project ++ ".config"))) = 1) ∧
    ((processProject d env sec).1.count (Effect.createGithub sec.project) = 1) ∧
    (((processProject d env sec).1 ++ (processProject d env sec).1).count
      (Effect.processAcls sec.project
        (sec.aclConfigOpt.getD (d.aclDir ++ "/" ++ sec.project ++ ".config"))) = 2) ∧
    (((processProject d env sec).1 ++ (processProject d env sec).1).count
      (Effect.createGithub sec.project) = 2) ∧
    ((processProject d env sec).2 = false) := by
  have h2m : sec.project ∈ env.projectList := by simpa using h2
  have hcg : create_gerrit_project env sec.project = ([], false, false) := by
    simp [create_gerrit_project, h2m]
  have hlm : create_local_mirror d env (sec.project ++ ".git") = ([], false) := by
    simp [create_local_mirror, h3]
  have hgh : create_github_project env sec.project =
      ([Effect.createGithub sec.project], false, env.githubCreated sec.project) := by
    simp [create_github_project, h7]
  simp only [processProject, hcg, hlm, hgh, h1, h4, h5, h6]
  cases hts : sec.options.contains "track-upstream" <;>
    cases hrep : env.githubCreated sec.project && d.gerritReplicate <;>
      simp [hts, hrep, List.count_append, List.count_cons, List.count_nil]

/-- C2 witness: the steady-state scenario instantiates the amended
theorem; one run performs each step once, two runs perform each twice. -/
theorem manage_projects_no_cache_reinvocation_witness :
    (processProject steadyDefaults steadyEnv widgetSec).1.count
      (Effect.processAcls "org/widget" "/home/gerrit2/acls/org/widget.config") = 1 ∧
    ((processProject steadyDefaults steadyEnv widgetSec).1 ++
      (processProject steadyDefaults steadyEnv widgetSec).1).count
      (Effect.createGithub "org/widget") = 2 := by
  have h := manage_projects_no_cache_reinvocation steadyDefaults steadyEnv
    widgetSec rfl rfl rfl rfl rfl rfl rfl
  exact ⟨h.1, h.2.2.2.1⟩

/-- The per-project body of `track_upstream.main` emits no phantom
effect. -/
theorem trackProject_benign (d : Defaults) (env : TrackEnv)
    (cache : ProjectCache) (sec : ProjSection) :
    ((trackProject d env cache sec).1.all fun e => !e.isPhantom) = true := by
  unfold trackProject
  repeat' split
  all_goals
    simp only [List.all_append, List.all_cons, List.all_nil,
      make_local_copy_benign, Bool.and_eq_true, Bool.and_true, Bool.true_and]
  all_goals try (repeat' split)
  all_goals
    simp only [List.all_append, List.all_cons, List.all_nil,
      make_local_copy_benign, Bool.and_eq_true, Bool.and_true, Bool.true_and]
  all_goals simp [Effect.isPhantom]

/-- The `track_upstream` project loop emits no phantom effect. -/
theorem trackLoop_benign (d : Defaults) (env : TrackEnv) (fl : List String) :
    ∀ (secs : List ProjSection) (cache : ProjectCache),
      ((trackLoop d env fl cache secs).1.all fun e => !e.isPhantom) = true
  | [], _ => by simp [trackLoop]
  | sec :: rest, cache => by
    have ih := trackLoop_benign d env fl rest
      (trackProject d env cache sec).2.2
    have hp := trackProject_benign d env cache sec
    simp only [trackLoop]
    split
    · exact trackLoop_benign d env fl rest cache
    · cases hr : (trackProject d env cache sec).2.1 <;>
        simp_all [List.all_append, List.all_eq_true, Effect.isPhantom]

/-- C10: a tracked project absent from the persisted cache has an empty
entry inserted by `setdefault` and then raises `KeyError` before any
effect, so it is skipped by the per-project handler; fsck and upstream
sync happen only for projects whose pre-existing entry maps
`pushed-to-gerrit` to true; and no run of `track_upstream.main` ever
writes the cache back. -/
theorem track_upstream_cache_gate (d : Defaults) (env : TrackEnv)
    (cache : ProjectCache) (sec : ProjSection) (fl : List String)
    (cache0 : ProjectCache) (entries : List ProjSection)
    (h1 : sec.options.contains "track-upstream" = true)
    (h2 : sec.options.contains "no-gerrit" = false)
    (h3 : List.lookup sec.project cache = none) :
    (trackProject d env cache sec = ([], true, cache ++ [(sec.project, [])])) ∧
    (∀ (c2 : ProjectCache) (s2 : ProjSection),
      (Effect.syncUpstream s2.project ∈ (trackProject d env c2 s2).1 ∨
       Effect.fsckEffect (d.jeepybCacheDir ++ "/import/" ++ s2.project) ∈
         (trackProject d env c2 s2).1) →
      ∃ entry, List.lookup s2.project c2 = some entry ∧
        List.lookup "pushed-to-gerrit" entry = some true) ∧
    (((track_upstream_main d env fl cache0 entries).1.all
        (fun e => !e.isCacheWrite)) = true) := by
  have hl : List.lookup sec.project (cache ++ [(sec.project, [])]) = some [] := by
    rw [lookup_append_of_none sec.project cache [(sec.project, [])] h3]
    simp [List.lookup]
  have h1m : "track-upstream" ∈ sec.options := by simpa using h1
  have h2m : "no-gerrit" ∉ sec.options := by simpa using h2
  refine ⟨?_, ?_, ?_⟩
  · simp [trackProject, h1m, h2m, h3, hl, List.lookup]
  · intro c2 s2 hmem
    simp only [trackProject] at hmem
    by_cases ht : "track-upstream" ∈ s2.options
    case neg => simp [ht] at hmem
    case pos =>
    by_cases hng : "no-gerrit" ∈ s2.options
    case pos => simp [ht, hng] at hmem
    case neg =>
    simp [ht, hng] at hmem
    cases hlk : List.lookup s2.project c2 with
    | none =>
      have hl2 : List.lookup s2.project (c2 ++ [(s2.project, [])]) = some [] := by
        rw [lookup_append_of_none s2.project c2 [(s2.project, [])] hlk]
        simp [List.lookup]
      simp [hlk, hl2, List.lookup] at hmem
    | some e0 =>
      cases hpg : List.lookup "pushed-to-gerrit" e0 with
      | none => simp [hlk, hpg] at hmem
      | some pushed =>
        cases pushed with
        | false => simp [hlk, hpg] at hmem
        | true => exact ⟨e0, rfl, hpg⟩
  · unfold track_upstream_main
    cases hc : configs_list entries with
    | ok cl =>
      have hb := trackLoop_benign d env fl cl cache0
      rw [List.all_eq_true] at hb ⊢
      intro e he
      simp only [List.mem_append, List.mem_singleton] at he
      rcases he with he | rfl
      · have hbe := hb e he
        rw [Bool.not_eq_true'] at hbe
        simp [phantom_cacheWrite e hbe]
      · rfl
    | error m => simp [Effect.isCacheWrite]

/-- C10 witness: with a cache that knows only another project, the
tracked project `new/proj` is skipped with a raised `KeyError`, its
empty entry inserted in memory only. -/
theorem track_upstream_cache_gate_witness :
    trackProject demoDefaults trackEnvSample trackCacheSample trackSecSample =
      ([], true, trackCacheSample ++ [("new/proj", [])]) :=
  (track_upstream_cache_gate demoDefaults trackEnvSample trackCacheSample
    trackSecSample [] [] [] rfl rfl rfl).1

end Jeepyb
